import Mathlib

/-!
Shallow embedding of `src/transform/assignment_handler.py` (the enrichment
engine of the real-time CRM leads pipeline) and proofs about the claims of
the specification.

Conventions of the embedding:
* JSON values (what `json.loads` produces and `json.dumps` consumes) are the
  inductive type `Json`; the Python value `None` is `Json.null`.
* Python exceptions relevant to the engine are the type `PyErr`.
* Strings manipulated character by character (object-store keys) are
  `List Char`; `String.toList` converts literals.
* Machine effects (object-store reads, the owner-lookup HTTP calls, the
  secrets-manager call, `json.loads`, the Slack POST, the clock) are supplied
  as explicit oracles in a `World` record; writes performed by the handler are
  accumulated in an `Effects` record instead of being performed.
-/

/-- A JSON value. Numbers are modelled as integers: no claim inspects numeric
values beyond truthiness. -/
inductive Json where
  | null
  | str (s : String)
  | num (n : Int)
  | bool (b : Bool)
  | arr (xs : List Json)
  | obj (fields : List (String × Json))

/-- Python `d.get(k, default)`: succeeds on a dict, raises `AttributeError`
on any other value. -/
def pyGetD (j : Json) (k : String) (d : Json) : Except String Json :=
  match j with
  | .obj fs => .ok ((fs.lookup k).getD d)
  | _ => .error "AttributeError"

/-- Python `d.get(k)` (default `None`). -/
def pyGet (j : Json) (k : String) : Except String Json :=
  pyGetD j k .null

/-- Python `d[k]` on a dict: `KeyError` when absent, `TypeError` when the
value subscripted with a string key is not a dict. -/
def pyIndex (j : Json) (k : String) : Except String Json :=
  match j with
  | .obj fs =>
    match fs.lookup k with
    | some v => .ok v
    | none => .error "KeyError"
  | _ => .error "TypeError"

/-- Python truthiness of a JSON value (`None`, `""`, `0`, `[]`, `\x7b\x7d`
and `False` are falsy). -/
def pyTruthy : Json → Bool
  | .null => false
  | .str s => !(s == "")
  | .num n => !(n == 0)
  | .bool b => b
  | .arr xs => !xs.isEmpty
  | .obj fs => !fs.isEmpty

/-- Python `a or b` on JSON values. -/
def pyOr (a b : Json) : Json :=
  if pyTruthy a then a else b

/-- Field lookup in a JSON object (used to state properties of the artifacts
the engine writes). -/
def jLookup (j : Json) (k : String) : Option Json :=
  match j with
  | .obj fs => fs.lookup k
  | _ => none

/-- The Python exceptions the engine can observe.
`httpError` is `urllib.error.HTTPError` with its status code; `urlError` is a
`urllib.error.URLError` that is not an `HTTPError` (timeout, DNS, connection
refused), carrying its message; `otherError` is any other exception, carrying
the name of its type (`type(e).__name__`). -/
inductive PyErr where
  | httpError (code : Nat)
  | urlError (msg : String)
  | otherError (name : String)
deriving DecidableEq

/-- `type(e).__name__` for the reason string of the error artifact. -/
def PyErr.typeName : PyErr → String
  | .httpError _ => "HTTPError"
  | .urlError _ => "URLError"
  | .otherError n => n

/-- `str(e)`, the detail string of the error artifact. The exact rendering is
presentation-only; no claim depends on it. -/
def PyErr.render : PyErr → String
  | .httpError c => "HTTP Error " ++ toString c
  | .urlError m => m
  | .otherError n => n

/-- `classify_lookup_error` (source lines 41-50).
The source tests `isinstance(err, urllib.error.HTTPError)` and then
`isinstance(err, urllib.error.URLError)`; in Python `HTTPError` is a subclass
of `URLError`, so an `HTTPError` whose code is neither 4xx nor 5xx falls
through the first test and matches the second, returning "transient". -/
def classify_lookup_error (err : PyErr) : String :=
  match err with
  | .httpError code =>
    if 400 ≤ code ∧ code < 500 then "permanent"
    else if 500 ≤ code ∧ code < 600 then "transient"
    else "transient"
  | .urlError _ => "transient"
  | .otherError _ => "unknown"

/-- `RETRY_TRANSIENT` (source line 17). -/
def RETRY_TRANSIENT : Nat := 2

/-- The body of the `for _ in range(RETRY_TRANSIENT + 1)` loop of
`fetch_owner_json` (source lines 52-66). `net i` is the outcome of the
`i`-th `urlopen` + `json.loads` attempt (0-indexed); the result pairs the
value returned or exception raised with the number of attempts made.
When the loop ends without returning, the source runs `raise last`; `last`
can only be `None` there if the loop ran zero times, which cannot happen
for a positive budget (Python would raise a `TypeError` in that case). -/
def fetchLoop (net : Nat → Except PyErr Json) :
    Nat → Nat → Option PyErr → Except PyErr Json × Nat
  | 0, i, last => (.error (match last with | some e => e | none => .otherError "TypeError"), i)
  | fuel + 1, i, _ =>
    match net i with
    | .ok j => (.ok j, i + 1)
    | .error e =>
      if classify_lookup_error e = "permanent" then (.error e, i + 1)
      else fetchLoop net fuel (i + 1) (some e)

/-- `fetch_owner_json` (source lines 52-66): up to `RETRY_TRANSIENT + 1`
attempts, aborting immediately on a permanently-classified failure,
re-raising the last error when the budget is exhausted. -/
def fetch_owner_json (net : Nat → Except PyErr Json) : Except PyErr Json × Nat :=
  fetchLoop net (RETRY_TRANSIENT + 1) 0 none

/-- Python `s.split(sep)` for a one-character separator (`key.split("/")`,
source line 130): splits on every occurrence, keeping empty pieces, and
yields `[s]` when the separator does not occur. -/
def pySplit (sep : Char) : List Char → List (List Char)
  | [] => [[]]
  | c :: rest =>
    let ps := pySplit sep rest
    if c = sep then [] :: ps
    else (c :: ps.headD []) :: ps.tail

/-- Python `s.split(sep, 1)` for a one-character separator
(`parts[i].split("=", 1)`, source lines 134-135): at most one split, at the
first occurrence of the separator. -/
def pySplit1 (sep : Char) : List Char → List (List Char)
  | [] => [[]]
  | c :: rest =>
    if c = sep then [[], rest]
    else
      let ps := pySplit1 sep rest
      (c :: ps.headD []) :: ps.tail

/-- Python `s.startswith(p)`. -/
def startsWithL : List Char → List Char → Bool
  | [], _ => true
  | _ :: _, [] => false
  | p :: ps, c :: cs => p = c && startsWithL ps cs

/-- Outcome of the key-screening and key-parsing steps of the handler
(source lines 126-135): a key can be silently skipped (`continue`), parsed
into `(day, lead_id)`, or raise (the string is the name of the exception). -/
inductive KeyParse where
  | skip
  | ok (day lead_id : List Char)
  | err (e : String)
deriving DecidableEq

/-- Key screening and parsing (source lines 126-135):
`if not key.startswith("crm/lead_created/"): continue`, then
`parts = key.split("/")`,
`if len(parts) < 5 or parts[0] != "crm" or parts[1] != "lead_created": continue`,
then `day = parts[2].split("=", 1)[1]` and `lead_id = parts[3].split("=", 1)[1]`.
The final two subscripts `[1]` raise `IndexError` when the segment contains
no `=`, because `split` with a separator that does not occur returns a
one-element list. -/
def parse_key (key : List Char) : KeyParse :=
  if startsWithL ("crm/lead_created/".toList) key = false then .skip
  else
    let parts := pySplit '/' key
    if parts.length < 5 then .skip
    else if ¬ parts.getD 0 [] = "crm".toList then .skip
    else if ¬ parts.getD 1 [] = "lead_created".toList then .skip
    else
      match (pySplit1 '=' (parts.getD 2 [])).get? 1 with
      | none => .err "IndexError"
      | some day =>
        match (pySplit1 '=' (parts.getD 3 [])).get? 1 with
        | none => .err "IndexError"
        | some lid => .ok day lid

/-- A raw-object key in the documented format
`crm/lead_created/dt=DAY/lead_id=ID/crm_event_ID.json` (spec section 6,
comment at source line 126). -/
def raw_key (d i : List Char) : List Char :=
  "crm/lead_created/dt=".toList ++ d ++ "/lead_id=".toList ++ i
    ++ "/crm_event_".toList ++ i ++ ".json".toList

/-- The curated-artifact key derived from `(day, lead_id)` (source line 176):
`f"crm/lead_enriched/dt=DAY/lead_id=ID/lead_ID.json"` written out. -/
def curated_key (d i : List Char) : List Char :=
  "crm/lead_enriched/dt=".toList ++ d ++ "/lead_id=".toList ++ i
    ++ "/lead_".toList ++ i ++ ".json".toList

/-- The error-artifact key derived from `(day, lead_id)` (source line 69):
`f"crm/errors/dt=DAY/lead_id=ID/owner_lookup_failed.json"` written out. -/
def err_key (d i : List Char) : List Char :=
  "crm/errors/dt=".toList ++ d ++ "/lead_id=".toList ++ i
    ++ "/owner_lookup_failed.json".toList

/-- Value of a hexadecimal digit, if any. -/
def hexVal (c : Char) : Option Nat :=
  if '0' ≤ c ∧ c ≤ '9' then some (c.toNat - '0'.toNat)
  else if 'a' ≤ c ∧ c ≤ 'f' then some (c.toNat - 'a'.toNat + 10)
  else if 'A' ≤ c ∧ c ≤ 'F' then some (c.toNat - 'A'.toNat + 10)
  else none

/-- Scanner for `unquote_plus`, structurally recursive on a fuel argument;
each step consumes at least one character for one unit of fuel, so fuel equal
to the length of the input scans it completely. After an invalid escape the
scan resumes at the character right after the `%`, as CPython does. -/
def unquoteGo : Nat → List Char → List Char
  | 0, s => s
  | _ + 1, [] => []
  | fuel + 1, c :: rest =>
    if c = '+' then ' ' :: unquoteGo fuel rest
    else if c = '%' then
      match rest with
      | a :: b :: rest2 =>
        match hexVal a, hexVal b with
        | some hi, some lo => Char.ofNat (16 * hi + lo) :: unquoteGo fuel rest2
        | _, _ => '%' :: unquoteGo fuel (a :: b :: rest2)
      | _ => '%' :: unquoteGo fuel rest
    else c :: unquoteGo fuel rest

/-- `urllib.parse.unquote_plus` (source line 124): `+` becomes a space and
`%hh` escapes are decoded; an invalid escape is kept literally. Decoded
bytes are taken as character codes directly; multi-byte UTF-8 sequences
(irrelevant to every claim) are not reassembled. -/
def unquote_plus (s : List Char) : List Char :=
  unquoteGo s.length s

/-- `owner_url = f"OWNER_BASE/LEAD_ID.json"` (source line 145). -/
def owner_url (base : String) (lid : List Char) : List Char :=
  base.toList ++ "/".toList ++ lid ++ ".json".toList

/-- `_write_error_artifact` payload (source lines 68-77), with the reason
`f"permanent:..."` supplied by the caller at source line 154 and the extra
`detail` entry set to `str(e)` at source line 155. -/
def error_payload (lid : List Char) (e : PyErr) (now : String) : Json :=
  .obj [("lead_id", .str (String.mk lid)),
    ("reason", .str ("permanent:" ++ e.typeName)),
    ("at", .str now),
    ("detail", .str e.render)]

/-- `raw.get("event", ...).get("data", ...)` with empty-dict defaults
(source line 139): raises `AttributeError` when `raw`, or the value of its
`event` member, is not a dict. -/
def dataOf (raw : Json) : Except String Json := do
  let ev ← pyGetD raw "event" (.obj [])
  pyGetD ev "data" (.obj [])

/-- The `enriched` dict construction (source lines 163-174). Each `.get`
raises `AttributeError` when its receiver is not a dict; absent keys become
`None`. The `assignee` entry repeats `owner_payload.get("lead_owner")`
(source line 171). -/
def build_enriched (lid : List Char) (data owner : Json) (status now : String) :
    Except String Json := do
  let dn ← pyGet data "display_name"
  let sl ← pyGet data "status_label"
  let dc ← pyGet data "date_created"
  let le ← pyGet owner "lead_email"
  let lo ← pyGet owner "lead_owner"
  let fu ← pyGet owner "funnel"
  let asg ← pyGet owner "lead_owner"
  Except.ok (.obj [("lead_id", .str (String.mk lid)),
    ("display_name", dn), ("status_label", sl), ("date_created", dc),
    ("lead_email", le), ("lead_owner", lo), ("funnel", fu),
    ("assignee", asg), ("enriched_at", .str now),
    ("owner_lookup_status", .str status)])

/-- The merge performed per raw object: extract `event.data` (source line
139) and build the curated payload (source lines 163-174). -/
def merge_raw (lid : List Char) (raw owner : Json) (status now : String) :
    Except String Json := do
  let data ← dataOf raw
  build_enriched lid data owner status now

/-- Outcome of the Slack POST attempt inside the `try` block of
`_post_slack`: a response, an `HTTPError`, or any other exception. -/
inductive PostOutcome where
  | resp (code : Nat) (body : String)
  | httpErr (code : Nat) (body : String)
  | exc (msg : String)
deriving DecidableEq

/-- Whether `urllib.request.Request(url, ...)` accepts the url string: its
`_parse` step requires a scheme, a nonempty run of characters other than
`/` and `:` followed by `:` (CPython `splittype`); otherwise the constructor
raises `ValueError` before any request is made. -/
def hasUrlType (s : List Char) : Bool :=
  let sch := s.takeWhile (fun c => !(c == '/') && !(c == ':'))
  match s.dropWhile (fun c => !(c == '/') && !(c == ':')) with
  | ':' :: _ => !sch.isEmpty
  | _ => false

/-- `_post_slack` (source lines 97-113). `json.dumps(payload)` and the
`urllib.request.Request(...)` construction happen before the `try` block:
the `Request` constructor raises `ValueError` when the url string has no
scheme and an `AttributeError` when the url is not a string, and nothing
catches those. Inside the `try` every exception is absorbed: an `HTTPError`
yields `(e.code, body)` and any other exception `(0, str(e))`. The POST body
is presentation-only (it never influences control flow), so it is not passed
to the outcome oracle. -/
def post_slack (url : Json) (o : PostOutcome) : Except String (Nat × String) :=
  match url with
  | .str u =>
    if hasUrlType u.toList then
      .ok (match o with
        | .resp c b => (c, b)
        | .httpErr c b => (c, b)
        | .exc m => (0, m))
    else .error "ValueError"
  | _ => .error "AttributeError"

/-- `_slack_url` (source lines 84-95). `secretFetch` is the outcome of
`secrets.get_secret_value(...)` (the boto3 response object, or the raised
exception); `loads` is Python `json.loads`. With no configured secret name
(unset or empty environment variable) the function returns `None`; any
exception inside the `try` is printed and turned into `None`. The source
evaluates `data.get("url") or data.get("webhook") or
data.get("SLACK_WEBHOOK_URL")`; the three `.get` calls fail only together
(when `data` is not a dict), so evaluating them all preserves behaviour. -/
def slack_url (secretName : Option String) (secretFetch : Except String Json)
    (loads : String → Except String Json) : Json :=
  match secretName with
  | none => .null
  | some _ =>
    match (do
      let sec ← secretFetch
      let v ← pyGet sec "SecretString"
      let val := pyOr v (.str "\x7b\x7d")
      let valStr ← match val with
        | .str s => Except.ok s
        | _ => Except.error "TypeError"
      let data ← loads valStr
      let u1 ← pyGet data "url"
      let u2 ← pyGet data "webhook"
      let u3 ← pyGet data "SLACK_WEBHOOK_URL"
      Except.ok (pyOr u1 (pyOr u2 u3)) : Except String Json) with
    | .ok url => url
    | .error _ => .null

/-- The Slack notification block of the handler (source lines 180-199):
resolve the webhook url and, when it is truthy, POST the summary message
built from the enriched payload (the message text is presentation-only).
Returns the list of `(status, body)` results printed, or the exception the
`Request` constructor raised, which nothing catches. -/
def notify_step (secretName : Option String) (secretFetch : Except String Json)
    (loads : String → Except String Json) (postO : PostOutcome) :
    Except String (List (Nat × String)) :=
  let hook := slack_url secretName secretFetch loads
  if pyTruthy hook then
    match post_slack hook postO with
    | .ok sb => .ok [sb]
    | .error e => .error e
  else .ok []

/-- The configuration surface of the handler (source lines 8-17 and 81). An
unset or empty `SLACK_SECRET_NAME` is `none`. -/
structure Config where
  skip_owner_lookup : Bool
  owner_base : String
  curated_bucket : String
  error_bucket : String
  slack_secret_name : Option String

/-- The external collaborators, as oracles: `s3obj` is the object-store
content read by `_read_json_from_s3`; `net url i` is the outcome of the
`i`-th `urlopen(url)` + `json.loads` attempt inside `fetch_owner_json`;
`secret` is the outcome of `secrets.get_secret_value`; `loads` is Python
`json.loads` on strings; `postO` is the outcome of the Slack POST; `now` is
the `_now_iso()` timestamp. -/
structure World where
  s3obj : String → List Char → Json
  net : List Char → Nat → Except PyErr Json
  secret : Except String Json
  loads : String → Except String Json
  postO : PostOutcome
  now : String

/-- S3 writes and lookup calls recorded while processing one raw object,
before the notification step: each write is `(bucket, key, payload)` and
each lookup call is `(url, number of urlopen attempts made)`. -/
structure Effects0 where
  errorWrites : List (String × List Char × Json)
  curatedWrites : List (String × List Char × Json)
  lookupCalls : List (List Char × Nat)

def noEff : Effects0 := ⟨[], [], []⟩

/-- All observable effects of the handler: the S3 writes and the lookup
calls, plus the `(status, body)` of each Slack POST performed. -/
structure Effects where
  errorWrites : List (String × List Char × Json)
  curatedWrites : List (String × List Char × Json)
  lookupCalls : List (List Char × Nat)
  slackPosts : List (Nat × String)

def Effects.app (a b : Effects) : Effects :=
  ⟨a.errorWrites ++ b.errorWrites, a.curatedWrites ++ b.curatedWrites,
   a.lookupCalls ++ b.lookupCalls, a.slackPosts ++ b.slackPosts⟩

/-- The owner-lookup phase for one raw object (source lines 141-161): with
`SKIP_OWNER_LOOKUP` the payload stays empty and the status is "skipped";
otherwise `fetch_owner_json` runs, a permanently-classified failure is
absorbed by writing the error artifact (source lines 150-158) and forcing
status "permanent_failed" with an empty payload, and a transient or unknown
failure re-raises. Returns the lookup calls made, and either the raised
error or `(owner_payload, lookup_status, error-artifact writes)`. -/
def lookup_phase (skip : Bool) (net : Nat → Except PyErr Json) (url day lid : List Char)
    (errorBucket : String) (now : String) :
    List (List Char × Nat) × Except PyErr (Json × String × List (String × List Char × Json)) :=
  if skip then ([], .ok (.obj [], "skipped", []))
  else
    match fetch_owner_json net with
    | (.ok owner, n) => ([(url, n)], .ok (owner, "ok", []))
    | (.error e, n) =>
      if classify_lookup_error e = "permanent" then
        ([(url, n)], .ok (.obj [], "permanent_failed",
          [(errorBucket, err_key day lid, error_payload lid e now)]))
      else ([(url, n)], .error e)

/-- Processing of one raw-object key up to and including the curated write
(source lines 126-177), excluding the notification step: screen and parse
the key, read the raw object, extract `event.data`, run the lookup phase,
build the curated payload and record its write. Returns the enriched
payload when one was written (`none` when the key was skipped). -/
def enrich_object (skip : Bool) (ownerBase curatedBucket errorBucket : String)
    (s3obj : String → List Char → Json) (net : List Char → Nat → Except PyErr Json)
    (now : String) (bucket : String) (key : List Char) :
    Effects0 × Except PyErr (Option Json) :=
  match parse_key key with
  | .skip => (noEff, .ok none)
  | .err e => (noEff, .error (.otherError e))
  | .ok day lid =>
    match dataOf (s3obj bucket key) with
    | .error e => (noEff, .error (.otherError e))
    | .ok data =>
      match lookup_phase skip (net (owner_url ownerBase lid)) (owner_url ownerBase lid)
          day lid errorBucket now with
      | (calls, .error e) => (⟨[], [], calls⟩, .error e)
      | (calls, .ok (owner, status, errWrites)) =>
        match build_enriched lid data owner status now with
        | .error e => (⟨errWrites, [], calls⟩, .error (.otherError e))
        | .ok enr =>
          (⟨errWrites, [(curatedBucket, curated_key day lid, enr)], calls⟩, .ok (some enr))

/-- One iteration of the inner record loop for a `(bucket, key)` pair
(source lines 126-199): the enrichment phase followed by the Slack
notification, which runs only when a curated artifact was written. -/
def process_object (cfg : Config) (w : World) (bucket : String) (key : List Char) :
    Effects × Except PyErr Unit :=
  let r := enrich_object cfg.skip_owner_lookup cfg.owner_base cfg.curated_bucket
    cfg.error_bucket w.s3obj w.net w.now bucket key
  match r.2 with
  | .error e => (⟨r.1.errorWrites, r.1.curatedWrites, r.1.lookupCalls, []⟩, .error e)
  | .ok none => (⟨r.1.errorWrites, r.1.curatedWrites, r.1.lookupCalls, []⟩, .ok ())
  | .ok (some _) =>
    match notify_step cfg.slack_secret_name w.secret w.loads w.postO with
    | .ok posts => (⟨r.1.errorWrites, r.1.curatedWrites, r.1.lookupCalls, posts⟩, .ok ())
    | .error e => (⟨r.1.errorWrites, r.1.curatedWrites, r.1.lookupCalls, []⟩, .error (.otherError e))

/-- One inner `for rec in s3_event.get("Records", [])` iteration (source
lines 122-124): extract the bucket name and object key, URL-decode the key,
and process the object. A non-string bucket or key would make the AWS
client or `unquote_plus` raise; that is modelled as a `TypeError`. -/
def process_record (cfg : Config) (w : World) (rec : Json) : Effects × Except PyErr Unit :=
  match (do
    let s3part ← pyIndex rec "s3"
    let bpart ← pyIndex s3part "bucket"
    let bname ← pyIndex bpart "name"
    let opart ← pyIndex s3part "object"
    let okey ← pyIndex opart "key"
    Except.ok (bname, okey) : Except String (Json × Json)) with
  | .error e => (⟨[], [], [], []⟩, .error (.otherError e))
  | .ok (bname, okey) =>
    match bname, okey with
    | .str b, .str k => process_object cfg w b (unquote_plus k.toList)
    | _, _ => (⟨[], [], [], []⟩, .error (.otherError "TypeError"))

/-- The inner record loop (source line 122): records are processed in
order; an exception raised while processing one record aborts the rest. -/
def process_records (cfg : Config) (w : World) : List Json → Effects × Except PyErr Unit
  | [] => (⟨[], [], [], []⟩, .ok ())
  | rec :: rest =>
    match process_record cfg w rec with
    | (eff, .error e) => (eff, .error e)
    | (eff, .ok _) =>
      let r := process_records cfg w rest
      (Effects.app eff r.1, r.2)

/-- `x.get("Records", [])` followed by iteration (source lines 118 and
122). Iterating a value that is not a list is modelled as a `TypeError`;
every claim concerns events whose `Records` member is a list. -/
def recordsList (j : Json) : Except String (List Json) :=
  match pyGetD j "Records" (.arr []) with
  | .error e => .error e
  | .ok (.arr xs) => .ok xs
  | .ok _ => .error "TypeError"

/-- Boolean substring test (Python `k in s` on two strings). -/
def containsSub (pat : List Char) : List Char → Bool
  | [] => startsWithL pat []
  | c :: rest => startsWithL pat (c :: rest) || containsSub pat rest

/-- Python `k in x` for a string `k` (source line 120): key membership on a
dict, element equality on a list (`==` between a string and a non-string is
`False`), substring test on a string, `TypeError` otherwise. -/
def pyContains (j : Json) (k : String) : Except String Bool :=
  match j with
  | .obj fs => .ok (fs.lookup k).isSome
  | .arr xs => .ok (xs.any fun v => match v with | .str s => s == k | _ => false)
  | .str s => .ok (containsSub k.toList s.toList)
  | _ => .error "TypeError"

/-- One outer `for record in event.get("Records", [])` iteration body
(source lines 119-199): `body = json.loads(record["body"])`, unwrap an SNS
envelope (`json.loads(body.get("Message"))` when a `Message` member is
present), then run the inner record loop. `json.loads` applied to a
non-string raises a `TypeError`. -/
def handle_body (cfg : Config) (w : World) (record : Json) : Effects × Except PyErr Unit :=
  match (do
    let braw ← pyIndex record "body"
    let bstr ← match braw with
      | .str s => Except.ok s
      | _ => Except.error "TypeError"
    let body ← w.loads bstr
    let hasMsg ← pyContains body "Message"
    if hasMsg then do
      let m ← pyGet body "Message"
      let mstr ← match m with
        | .str s => Except.ok s
        | _ => Except.error "TypeError"
      w.loads mstr
    else Except.ok body : Except String Json) with
  | .error e => (⟨[], [], [], []⟩, .error (.otherError e))
  | .ok s3ev =>
    match recordsList s3ev with
    | .error e => (⟨[], [], [], []⟩, .error (.otherError e))
    | .ok recs => process_records cfg w recs

/-- `lambda_handler` (source lines 116-202). The `return` statement on the
last line of the source sits inside the outer
`for record in event.get("Records", [])` loop, so the handler returns after
the loop body has run once: outer records after the first are never
examined. With an empty `Records` list the loop body never runs and the
function falls off its end, returning `None`. -/
def lambda_handler (cfg : Config) (w : World) (event : Json) :
    Effects × Except PyErr (Option Json) :=
  match recordsList event with
  | .error e => (⟨[], [], [], []⟩, .error (.otherError e))
  | .ok [] => (⟨[], [], [], []⟩, .ok none)
  | .ok (record :: _) =>
    match handle_body cfg w record with
    | (eff, .ok _) => (eff, .ok (some (.obj [("ok", .bool true)])))
    | (eff, .error e) => (eff, .error e)

/-- Forget the payload of an enrichment-phase result, for comparing the
outcome of `process_object` with the outcome its enrichment phase alone
determines. -/
def dropPayload : Except PyErr (Option Json) → Except PyErr Unit
  | .ok _ => .ok ()
  | .error e => .error e

/-- The curated payload that `build_enriched` computes when both the
`event.data` block and the owner payload are dicts (`dfs`, `gs`): absent
keys resolve to the null marker. -/
def enrBuiltG (i : List Char) (dfs gs : List (String × Json)) (status now : String) : Json :=
  .obj [("lead_id", .str (String.mk i)),
    ("display_name", (dfs.lookup "display_name").getD .null),
    ("status_label", (dfs.lookup "status_label").getD .null),
    ("date_created", (dfs.lookup "date_created").getD .null),
    ("lead_email", (gs.lookup "lead_email").getD .null),
    ("lead_owner", (gs.lookup "lead_owner").getD .null),
    ("funnel", (gs.lookup "funnel").getD .null),
    ("assignee", (gs.lookup "lead_owner").getD .null),
    ("enriched_at", .str now),
    ("owner_lookup_status", .str status)]

/-- Sample configuration: lookup enabled, no notification target. -/
def cfgA : Config :=
  ⟨false, "https://owners.example.com/owners", "curated-bucket", "error-bucket", none⟩

/-- Sample configuration: lookup skipped, no notification target. -/
def cfgSkip : Config :=
  ⟨true, "https://owners.example.com/owners", "curated-bucket", "error-bucket", none⟩

/-- Sample configuration: lookup enabled, Slack secret configured. -/
def cfgSlack : Config :=
  ⟨false, "https://owners.example.com/owners", "curated-bucket", "error-bucket",
   some "slack-secret"⟩

/-- Day partition of the sample raw object. -/
def dayA : List Char := "2024-03-01".toList

/-- Lead id of the sample raw object. -/
def leadA : List Char := "L100".toList

/-- The `event.data` fields of the sample raw object. -/
def dataA : List (String × Json) :=
  [("display_name", .str "Jane Doe"), ("date_created", .str "2024-03-01T10:00:00+00:00")]

/-- The sample raw object. -/
def rawA : Json := .obj [("event", .obj [("data", .obj dataA)])]

/-- The s3 event record of the sample raw object. -/
def s3RecA : Json :=
  .obj [("s3", .obj [("bucket", .obj [("name", .str "raw-bucket")]),
    ("object", .obj [("key",
      .str "crm/lead_created/dt=2024-03-01/lead_id=L100/crm_event_L100.json")])])]

/-- A second s3 event record, referencing lead L200. -/
def s3RecB : Json :=
  .obj [("s3", .obj [("bucket", .obj [("name", .str "raw-bucket")]),
    ("object", .obj [("key",
      .str "crm/lead_created/dt=2024-03-01/lead_id=L200/crm_event_L200.json")])])]

/-- SQS records: each body is the serialized s3 event text, which the
`loads` oracle of the sample worlds maps to its parsed JSON, as
`json.loads` does. -/
def sqsRecA : Json := .obj [("body", .str "s3-event-json-A")]

def sqsRecB : Json := .obj [("body", .str "s3-event-json-B")]

def loadsA : String → Except String Json := fun s =>
  if s == "s3-event-json-A" then .ok (.obj [("Records", .arr [s3RecA])])
  else if s == "s3-event-json-B" then .ok (.obj [("Records", .arr [s3RecB])])
  else if s == "secret-json" then .ok (.obj [("url", .str "hooks.slack.com/services/T000")])
  else if s == "secret-json-good" then
    .ok (.obj [("url", .str "https://hooks.slack.com/services/T000")])
  else .error "JSONDecodeError"

/-- A one-record SQS event. -/
def eventA : Json := .obj [("Records", .arr [sqsRecA])]

/-- A two-record SQS event. -/
def eventAB : Json := .obj [("Records", .arr [sqsRecA, sqsRecB])]

/-- World in which every owner lookup responds HTTP 404 and no Slack secret
is resolvable. -/
def w404 : World :=
  ⟨fun _ _ => rawA, fun _ _ => .error (.httpError 404), .error "ClientError",
   loadsA, .exc "unused", "2024-03-01T12:00:00+00:00"⟩

/-- World in which every owner lookup succeeds. -/
def wOk : World :=
  ⟨fun _ _ => rawA,
   fun _ _ => .ok (.obj [("lead_owner", .str "alice"), ("lead_email", .str "a@x.com")]),
   .error "ClientError", loadsA, .resp 200 "ok", "2024-03-01T12:00:00+00:00"⟩

/-- World in which the Slack secret resolves to a webhook url that has no
scheme (a real misconfiguration: the `https://` was dropped). -/
def wBadHook : World :=
  ⟨fun _ _ => rawA,
   fun _ _ => .ok (.obj [("lead_owner", .str "alice")]),
   .ok (.obj [("SecretString", .str "secret-json")]),
   loadsA, .resp 200 "ok", "2024-03-01T12:00:00+00:00"⟩

/-- World in which the Slack secret resolves to a well-formed https url but
the POST itself fails with a network error. -/
def wGoodHook : World :=
  ⟨fun _ _ => rawA,
   fun _ _ => .ok (.obj [("lead_owner", .str "alice")]),
   .ok (.obj [("SecretString", .str "secret-json-good")]),
   loadsA, .exc "socket timeout", "2024-03-01T12:00:00+00:00"⟩

/-- The single curated write of the sample one-record successful run, the
concrete instance for which the C10 theorem is exercised. -/
def pC10 : String × List Char × Json :=
  (lambda_handler cfgA wOk eventA).1.curatedWrites.headD ("", [], .null)

theorem startsWithL_append (p rest : List Char) : startsWithL p (p ++ rest) = true := by
  induction p with
  | nil => rfl
  | cons c cs ih => simp [startsWithL, ih]

theorem pySplit_nosep (sep : Char) (s : List Char) (h : sep ∉ s) : pySplit sep s = [s] := by
  induction s with
  | nil => rfl
  | cons c cs ih =>
    have hc : ¬ c = sep := fun hh => h (hh ▸ List.mem_cons_self c cs)
    have hcs : sep ∉ cs := fun hh => h (List.mem_cons_of_mem _ hh)
    simp [pySplit, hc, ih hcs]

theorem pySplit_sep (sep : Char) (x y : List Char) (h : sep ∉ x) :
    pySplit sep (x ++ sep :: y) = x :: pySplit sep y := by
  induction x with
  | nil => simp [pySplit]
  | cons c cs ih =>
    have hc : ¬ c = sep := fun hh => h (hh ▸ List.mem_cons_self c cs)
    have hcs : sep ∉ cs := fun hh => h (List.mem_cons_of_mem _ hh)
    simp [pySplit, hc, ih hcs]

theorem pySplit1_at (sep : Char) (x y : List Char) (h : sep ∉ x) :
    pySplit1 sep (x ++ sep :: y) = [x, y] := by
  induction x with
  | nil => simp [pySplit1]
  | cons c cs ih =>
    have hc : ¬ c = sep := fun hh => h (hh ▸ List.mem_cons_self c cs)
    have hcs : sep ∉ cs := fun hh => h (List.mem_cons_of_mem _ hh)
    simp [pySplit1, hc, ih hcs]

theorem pySplit1_shape (sep : Char) (s : List Char) :
    (pySplit1 sep s = [s] ∧ sep ∉ s) ∨ ∃ a b, pySplit1 sep s = [a, b] ∧ sep ∈ s := by
  induction s with
  | nil => exact Or.inl ⟨rfl, by simp⟩
  | cons c cs ih =>
    by_cases hc : c = sep
    · subst hc
      exact Or.inr ⟨[], cs, by simp [pySplit1], List.mem_cons_self c cs⟩
    · rcases ih with ⟨h1, h2⟩ | ⟨a, b, h1, h2⟩
      · refine Or.inl ⟨by simp [pySplit1, hc, h1], ?_⟩
        intro hmem
        rcases List.mem_cons.mp hmem with hh | hh
        · exact hc hh.symm
        · exact h2 hh
      · exact Or.inr ⟨c :: a, b, by simp [pySplit1, hc, h1], List.mem_cons_of_mem _ h2⟩

theorem splitRaw (d i : List Char) (hd : ('/' : Char) ∉ d) (hi : ('/' : Char) ∉ i) :
    pySplit '/' (raw_key d i)
      = ["crm".toList, "lead_created".toList, "dt=".toList ++ d,
         "lead_id=".toList ++ i, "crm_event_".toList ++ i ++ ".json".toList] := by
  have h2 : ('/' : Char) ∉ "dt=".toList ++ d := by
    intro hmem
    rcases List.mem_append.mp hmem with hmem1 | hmem1
    · revert hmem1; decide
    · exact hd hmem1
  have h3 : ('/' : Char) ∉ "lead_id=".toList ++ i := by
    intro hmem
    rcases List.mem_append.mp hmem with hmem1 | hmem1
    · revert hmem1; decide
    · exact hi hmem1
  have h4 : ('/' : Char) ∉ "crm_event_".toList ++ i ++ ".json".toList := by
    intro hmem
    rcases List.mem_append.mp hmem with hmem1 | hmem1
    · rcases List.mem_append.mp hmem1 with hmem2 | hmem2
      · revert hmem2; decide
      · exact hi hmem2
    · revert hmem1; decide
  have e1 : raw_key d i
      = "crm".toList ++ '/' :: ("lead_created".toList ++ '/' :: (("dt=".toList ++ d)
        ++ '/' :: (("lead_id=".toList ++ i)
        ++ '/' :: ("crm_event_".toList ++ i ++ ".json".toList)))) := by
    simp only [raw_key, List.append_assoc, List.cons_append]
    rfl
  rw [e1, pySplit_sep _ _ _ (by decide), pySplit_sep _ _ _ (by decide),
      pySplit_sep _ _ _ h2, pySplit_sep _ _ _ h3, pySplit_nosep _ _ h4]

theorem parse_raw_key (d i : List Char) (hd : ('/' : Char) ∉ d) (hi : ('/' : Char) ∉ i) :
    parse_key (raw_key d i) = .ok d i := by
  have hs := splitRaw d i hd hi
  have hsw : startsWithL ("crm/lead_created/".toList) (raw_key d i) = true := by
    have e1 : raw_key d i
        = "crm/lead_created/".toList ++ ("dt=".toList ++ d ++ "/lead_id=".toList ++ i
          ++ "/crm_event_".toList ++ i ++ ".json".toList) := by
      simp only [raw_key, List.append_assoc]
      rfl
    rw [e1]
    exact startsWithL_append _ _
  have hsw2 : startsWithL
      ['c', 'r', 'm', '/', 'l', 'e', 'a', 'd', '_', 'c', 'r', 'e', 'a', 't', 'e', 'd', '/']
      (raw_key d i) = true := hsw
  have h2d : pySplit1 '=' ('d' :: 't' :: '=' :: d) = [['d', 't'], d] :=
    pySplit1_at '=' ("dt".toList) d (by decide)
  have h3i : pySplit1 '=' ('l' :: 'e' :: 'a' :: 'd' :: '_' :: 'i' :: 'd' :: '=' :: i)
      = [['l', 'e', 'a', 'd', '_', 'i', 'd'], i] :=
    pySplit1_at '=' ("lead_id".toList) i (by decide)
  simp [parse_key, hsw, hsw2, hs, h2d, h3i]

/-- C7: for every valid raw-object key
`crm/lead_created/dt=DAY/lead_id=ID/crm_event_ID.json` (with day and id free
of `/`), parsing recovers `(day, lead_id)` exactly, and the curated and
error keys re-derived from the recovered pair are byte-for-byte
`crm/lead_enriched/dt=DAY/lead_id=ID/lead_ID.json` and
`crm/errors/dt=DAY/lead_id=ID/owner_lookup_failed.json`. -/
theorem c7_key_roundtrip (day lid : String)
    (hd : ('/' : Char) ∉ day.toList) (hi : ('/' : Char) ∉ lid.toList) :
    parse_key (raw_key day.toList lid.toList) = .ok day.toList lid.toList
    ∧ String.mk (curated_key day.toList lid.toList)
        = "crm/lead_enriched/dt=" ++ day ++ "/lead_id=" ++ lid ++ "/lead_" ++ lid ++ ".json"
    ∧ String.mk (err_key day.toList lid.toList)
        = "crm/errors/dt=" ++ day ++ "/lead_id=" ++ lid ++ "/owner_lookup_failed.json" := by
  refine ⟨parse_raw_key day.toList lid.toList hd hi, ?_, ?_⟩
  · cases day
    cases lid
    rfl
  · cases day
    cases lid
    rfl

/-- C7 witness: the round trip at a concrete day and lead id. -/
theorem c7_witness :
    parse_key (raw_key "2024-03-01".toList "L100".toList)
      = .ok "2024-03-01".toList "L100".toList
    ∧ String.mk (curated_key "2024-03-01".toList "L100".toList)
        = "crm/lead_enriched/dt=2024-03-01/lead_id=L100/lead_L100.json"
    ∧ String.mk (err_key "2024-03-01".toList "L100".toList)
        = "crm/errors/dt=2024-03-01/lead_id=L100/owner_lookup_failed.json" := by
  have h := c7_key_roundtrip "2024-03-01" "L100" (by decide) (by decide)
  exact ⟨h.1, h.2.1.trans rfl, h.2.2.trans rfl⟩

/-- C3 counterexample: a key with the expected prefix and segment count
whose dt and lead_id segments contain no `=` makes the key-parsing step
raise an `IndexError`; it is neither skipped nor parsed, refuting the claim
that parsing never raises. -/
theorem c3_counterexample :
    parse_key ("crm/lead_created/20240301/L100/crm_event_L100.json".toList)
      = .err "IndexError"
    ∧ ¬ parse_key ("crm/lead_created/20240301/L100/crm_event_L100.json".toList) = .skip :=
  ⟨rfl, by decide⟩

/-- C3 (amended): the key-parsing step either extracts `(day, lead_id)` or
silently skips the key for every key failing the prefix or segment-count
screening; but a key that passes the screening and whose dt or lead_id
segment contains no `=` raises an `IndexError` instead of being skipped,
and that is the only way it raises. -/
theorem c3_parse_skip_or_indexerror (key : List Char) :
    (parse_key key = .skip ∨ (∃ d i, parse_key key = .ok d i)
      ∨ parse_key key = .err "IndexError")
    ∧ (∀ e, parse_key key = .err e →
        e = "IndexError"
        ∧ startsWithL ("crm/lead_created/".toList) key = true
        ∧ 5 ≤ (pySplit '/' key).length
        ∧ (('=' : Char) ∉ (pySplit '/' key).getD 2 []
            ∨ ('=' : Char) ∉ (pySplit '/' key).getD 3 [])) := by
  have hmain : ∀ e, parse_key key = .err e →
      e = "IndexError"
      ∧ startsWithL ("crm/lead_created/".toList) key = true
      ∧ 5 ≤ (pySplit '/' key).length
      ∧ (('=' : Char) ∉ (pySplit '/' key).getD 2 []
          ∨ ('=' : Char) ∉ (pySplit '/' key).getD 3 []) := by
    intro e he
    simp only [parse_key] at he
    split at he
    · exact absurd he (by simp)
    next h1 =>
      have h1t : startsWithL ("crm/lead_created/".toList) key = true := by
        revert h1
        cases startsWithL ("crm/lead_created/".toList) key <;> simp
      split at he
      · exact absurd he (by simp)
      next h2 =>
        have h2le : 5 ≤ (pySplit '/' key).length := by omega
        split at he
        · exact absurd he (by simp)
        next =>
          split at he
          · exact absurd he (by simp)
          next =>
            split at he
            next heq2 =>
              refine ⟨(by simpa using he.symm), h1t, h2le, Or.inl ?_⟩
              rcases pySplit1_shape '=' ((pySplit '/' key).getD 2 [])
                  with ⟨ha, hna⟩ | ⟨a, b, hab, hin⟩
              · exact hna
              · rw [hab] at heq2
                simp at heq2
            next day heq2 =>
              split at he
              next heq3 =>
                refine ⟨(by simpa using he.symm), h1t, h2le, Or.inr ?_⟩
                rcases pySplit1_shape '=' ((pySplit '/' key).getD 3 [])
                    with ⟨ha, hna⟩ | ⟨a, b, hab, hin⟩
                · exact hna
                · rw [hab] at heq3
                  simp at heq3
              next lid heq3 => exact absurd he (by simp)
  refine ⟨?_, hmain⟩
  cases hk : parse_key key with
  | skip => exact Or.inl rfl
  | ok d i => exact Or.inr (Or.inl ⟨d, i, rfl⟩)
  | err e =>
    rcases hmain e hk with ⟨he, -, -, -⟩
    exact Or.inr (Or.inr (by rw [he]))

/-- C3 witness: the amended theorem exercised at a concrete raising key. -/
theorem c3_witness :
    ("IndexError" : String) = "IndexError"
    ∧ startsWithL ("crm/lead_created/".toList)
        ("crm/lead_created/nodate/noid/file.json".toList) = true
    ∧ 5 ≤ (pySplit '/' ("crm/lead_created/nodate/noid/file.json".toList)).length
    ∧ (('=' : Char) ∉ (pySplit '/' ("crm/lead_created/nodate/noid/file.json".toList)).getD 2 []
        ∨ ('=' : Char) ∉ (pySplit '/' ("crm/lead_created/nodate/noid/file.json".toList)).getD 3 []) :=
  (c3_parse_skip_or_indexerror ("crm/lead_created/nodate/noid/file.json".toList)).2
    "IndexError" rfl

/-- C4 counterexample: an HTTP-style error whose status code is neither 4xx
nor 5xx — for example an `HTTPError` with code 302, as raised on a redirect
loop — is not classified "unknown": because `HTTPError` is a subclass of
`URLError`, the second isinstance test matches and it classifies
"transient". -/
theorem c4_counterexample :
    classify_lookup_error (.httpError 302) = "transient"
    ∧ ("transient" : String) ≠ "unknown" :=
  ⟨rfl, by decide⟩

/-- C4 (amended): `classify_lookup_error` always returns one of permanent,
transient and unknown; a 4xx HTTP error is permanent; a 5xx HTTP error is
transient; a connection-level URLError is transient; an HTTP error with any
other status code is also transient (an HTTPError being a URLError, it
matches the second isinstance test rather than falling through to
"unknown"); only an error that is neither an HTTPError nor a URLError is
unknown. -/
theorem c4_classification_total :
    (∀ e : PyErr, classify_lookup_error e = "permanent"
      ∨ classify_lookup_error e = "transient" ∨ classify_lookup_error e = "unknown")
    ∧ (∀ c : Nat, 400 ≤ c → c < 500 → classify_lookup_error (.httpError c) = "permanent")
    ∧ (∀ c : Nat, 500 ≤ c → c < 600 → classify_lookup_error (.httpError c) = "transient")
    ∧ (∀ c : Nat, c < 400 ∨ 600 ≤ c → classify_lookup_error (.httpError c) = "transient")
    ∧ (∀ m : String, classify_lookup_error (.urlError m) = "transient")
    ∧ (∀ n : String, classify_lookup_error (.otherError n) = "unknown") := by
  refine ⟨?_, ?_, ?_, ?_, fun m => rfl, fun n => rfl⟩
  · intro e
    cases e with
    | httpError c =>
      by_cases h : 400 ≤ c ∧ c < 500
      · exact Or.inl (by simp [classify_lookup_error, h])
      · by_cases h2 : 500 ≤ c ∧ c < 600
        · exact Or.inr (Or.inl (by simp [classify_lookup_error, h, h2]))
        · exact Or.inr (Or.inl (by simp [classify_lookup_error, h, h2]))
    | urlError m => exact Or.inr (Or.inl rfl)
    | otherError n => exact Or.inr (Or.inr rfl)
  · intro c h1 h2
    have h : 400 ≤ c ∧ c < 500 := ⟨h1, h2⟩
    simp [classify_lookup_error, h]
  · intro c h1 h2
    have hn : ¬ (400 ≤ c ∧ c < 500) := by omega
    have h : 500 ≤ c ∧ c < 600 := ⟨h1, h2⟩
    simp [classify_lookup_error, hn, h]
  · intro c h1
    have hn : ¬ (400 ≤ c ∧ c < 500) := by omega
    by_cases h2 : 500 ≤ c ∧ c < 600
    · simp [classify_lookup_error, hn, h2]
    · simp [classify_lookup_error, hn, h2]

/-- C4 witness: concrete classifications obtained from the amended
theorem. -/
theorem c4_witness :
    classify_lookup_error (.httpError 404) = "permanent"
    ∧ classify_lookup_error (.httpError 503) = "transient"
    ∧ classify_lookup_error (.httpError 302) = "transient" :=
  ⟨c4_classification_total.2.1 404 (by decide) (by decide),
   c4_classification_total.2.2.1 503 (by decide) (by decide),
   c4_classification_total.2.2.2.1 302 (Or.inl (by decide))⟩

theorem fetchLoop_step (net : Nat → Except PyErr Json) (fuel i : Nat) (last : Option PyErr)
    (e : PyErr) (hnet : net i = .error e)
    (hcl : ¬ classify_lookup_error e = "permanent") :
    fetchLoop net (fuel + 1) i last = fetchLoop net fuel (i + 1) (some e) := by
  simp [fetchLoop, hnet, hcl]

theorem fetch_all_transient (net : Nat → Except PyErr Json) (e : Nat → PyErr)
    (h : ∀ k, k < RETRY_TRANSIENT + 1 →
      net k = .error (e k) ∧ ¬ classify_lookup_error (e k) = "permanent") :
    fetch_owner_json net = (.error (e RETRY_TRANSIENT), RETRY_TRANSIENT + 1) := by
  have h0 := h 0 (by decide)
  have h1 := h 1 (by decide)
  have h2 := h 2 (by decide)
  show fetchLoop net (2 + 1) 0 none = _
  rw [fetchLoop_step net 2 0 none (e 0) h0.1 h0.2,
      show (2 : Nat) = 1 + 1 from rfl,
      fetchLoop_step net 1 1 (some (e 0)) (e 1) h1.1 h1.2,
      show (1 : Nat) = 0 + 1 from rfl,
      fetchLoop_step net 0 2 (some (e 1)) (e 2) h2.1 h2.2]
  rfl

theorem fetch_perm_first (net : Nat → Except PyErr Json) (e0 : PyErr)
    (hnet : net 0 = .error e0) (hperm : classify_lookup_error e0 = "permanent") :
    fetch_owner_json net = (.error e0, 1) := by
  show fetchLoop net (2 + 1) 0 none = _
  simp [fetchLoop, hnet, hperm]

/-- C5: when every attempt fails with a transiently- or unknown-classified
error, `fetch_owner_json` makes exactly `RETRY_TRANSIENT + 1` attempts and
raises the last observed error; when the first failure is permanently
classified it aborts after that single attempt, raising it. -/
theorem c5_retry_budget :
    (∀ (net : Nat → Except PyErr Json) (e : Nat → PyErr),
      (∀ k, k < RETRY_TRANSIENT + 1 →
        net k = .error (e k) ∧ ¬ classify_lookup_error (e k) = "permanent") →
      fetch_owner_json net = (.error (e RETRY_TRANSIENT), RETRY_TRANSIENT + 1))
    ∧ (∀ (net : Nat → Except PyErr Json) (e0 : PyErr),
      net 0 = .error e0 → classify_lookup_error e0 = "permanent" →
      fetch_owner_json net = (.error e0, 1)) :=
  ⟨fetch_all_transient, fetch_perm_first⟩

/-- C5 witness: a lookup timing out on every attempt is retried exactly
three times (`RETRY_TRANSIENT + 1`) and the timeout is re-raised; a lookup
answering 404 on the first attempt is not retried. -/
theorem c5_witness :
    fetch_owner_json (fun _ => .error (.urlError "timed out"))
      = (.error (.urlError "timed out"), 3)
    ∧ fetch_owner_json (fun _ => .error (.httpError 404)) = (.error (.httpError 404), 1) :=
  ⟨c5_retry_budget.1 (fun _ => .error (.urlError "timed out")) (fun _ => .urlError "timed out")
      (fun _ _ => ⟨rfl,
        (by decide : ¬ classify_lookup_error (PyErr.urlError "timed out") = "permanent")⟩),
   c5_retry_budget.2 (fun _ => .error (.httpError 404)) (.httpError 404) rfl (by decide)⟩

theorem pyGetD_obj (fs : List (String × Json)) (k : String) (d : Json) :
    pyGetD (.obj fs) k d = .ok ((fs.lookup k).getD d) := rfl

theorem dataOf_obj (rfs : List (String × Json)) :
    dataOf (.obj rfs) = pyGetD ((rfs.lookup "event").getD (.obj [])) "data" (.obj []) := rfl

theorem build_obj (i : List Char) (dfs gs : List (String × Json)) (status now : String) :
    build_enriched i (.obj dfs) (.obj gs) status now
      = .ok (enrBuiltG i dfs gs status now) := rfl

/-- C6 counterexample: a raw object whose `event` member is not a dict makes
the merge raise an `AttributeError` (Python: `int` object has no attribute
`get`), refuting the claim that the merge never raises for every raw object
shape. -/
theorem c6_counterexample :
    merge_raw ("L100".toList) (.obj [("event", .num 5)]) (.obj []) "ok" "T"
      = .error "AttributeError" := rfl

/-- C6 (amended): the merge is total for every raw object that is a JSON
object whose `event` member, when present, is an object whose `data` member,
when present, is an object, and for every object-shaped (possibly empty)
owner record; each absent field then resolves to the null marker. A raw
object whose `event` (or `event.data`) member is present but not an object
makes the merge raise an `AttributeError`. -/
theorem c6_merge_total_on_object_shapes (lid : List Char) (rfs gs : List (String × Json))
    (status now : String)
    (hev : ∀ v, rfs.lookup "event" = some v → ∃ efs, v = .obj efs
      ∧ ∀ u, efs.lookup "data" = some u → ∃ dfs, u = .obj dfs) :
    ∃ dfs, dataOf (.obj rfs) = .ok (.obj dfs)
      ∧ merge_raw lid (.obj rfs) (.obj gs) status now
          = .ok (enrBuiltG lid dfs gs status now)
      ∧ (dfs.lookup "display_name" = none →
          jLookup (enrBuiltG lid dfs gs status now) "display_name" = some .null)
      ∧ (dfs.lookup "status_label" = none →
          jLookup (enrBuiltG lid dfs gs status now) "status_label" = some .null)
      ∧ (dfs.lookup "date_created" = none →
          jLookup (enrBuiltG lid dfs gs status now) "date_created" = some .null)
      ∧ (gs.lookup "lead_email" = none →
          jLookup (enrBuiltG lid dfs gs status now) "lead_email" = some .null)
      ∧ (gs.lookup "lead_owner" = none →
          jLookup (enrBuiltG lid dfs gs status now) "lead_owner" = some .null)
      ∧ (gs.lookup "funnel" = none →
          jLookup (enrBuiltG lid dfs gs status now) "funnel" = some .null) := by
  have hdfs : ∃ dfs, dataOf (.obj rfs) = .ok (.obj dfs) := by
    rcases hh : rfs.lookup "event" with _ | v
    · exact ⟨[], by rw [dataOf_obj, hh]; rfl⟩
    · rcases hev v hh with ⟨efs, rfl, hdat⟩
      rcases hh2 : efs.lookup "data" with _ | u
      · exact ⟨[], by rw [dataOf_obj, hh, Option.getD_some, pyGetD_obj, hh2]; rfl⟩
      · rcases hdat u hh2 with ⟨dfs, rfl⟩
        exact ⟨dfs, by rw [dataOf_obj, hh, Option.getD_some, pyGetD_obj, hh2]; rfl⟩
  rcases hdfs with ⟨dfs, hdfs⟩
  refine ⟨dfs, hdfs, ?_, ?_, ?_, ?_, ?_, ?_, ?_⟩
  · show dataOf (.obj rfs) >>= (fun data => build_enriched lid data (.obj gs) status now)
      = .ok (enrBuiltG lid dfs gs status now)
    rw [hdfs]
    exact build_obj lid dfs gs status now
  · intro h
    rw [show jLookup (enrBuiltG lid dfs gs status now) "display_name"
          = some ((dfs.lookup "display_name").getD Json.null) from rfl, h]
    rfl
  · intro h
    rw [show jLookup (enrBuiltG lid dfs gs status now) "status_label"
          = some ((dfs.lookup "status_label").getD Json.null) from rfl, h]
    rfl
  · intro h
    rw [show jLookup (enrBuiltG lid dfs gs status now) "date_created"
          = some ((dfs.lookup "date_created").getD Json.null) from rfl, h]
    rfl
  · intro h
    rw [show jLookup (enrBuiltG lid dfs gs status now) "lead_email"
          = some ((gs.lookup "lead_email").getD Json.null) from rfl, h]
    rfl
  · intro h
    rw [show jLookup (enrBuiltG lid dfs gs status now) "lead_owner"
          = some ((gs.lookup "lead_owner").getD Json.null) from rfl, h]
    rfl
  · intro h
    rw [show jLookup (enrBuiltG lid dfs gs status now) "funnel"
          = some ((gs.lookup "funnel").getD Json.null) from rfl, h]
    rfl

/-- C6 witness: the amended theorem at a raw object missing the entire
event block and an empty owner record. -/
theorem c6_witness :
    ∃ dfs, dataOf (.obj ([] : List (String × Json))) = .ok (.obj dfs)
      ∧ merge_raw "L100".toList (.obj []) (.obj []) "skipped" "T"
          = .ok (enrBuiltG "L100".toList dfs [] "skipped" "T")
      ∧ (dfs.lookup "display_name" = none →
          jLookup (enrBuiltG "L100".toList dfs [] "skipped" "T") "display_name" = some .null)
      ∧ (dfs.lookup "status_label" = none →
          jLookup (enrBuiltG "L100".toList dfs [] "skipped" "T") "status_label" = some .null)
      ∧ (dfs.lookup "date_created" = none →
          jLookup (enrBuiltG "L100".toList dfs [] "skipped" "T") "date_created" = some .null)
      ∧ (([] : List (String × Json)).lookup "lead_email" = none →
          jLookup (enrBuiltG "L100".toList dfs [] "skipped" "T") "lead_email" = some .null)
      ∧ (([] : List (String × Json)).lookup "lead_owner" = none →
          jLookup (enrBuiltG "L100".toList dfs [] "skipped" "T") "lead_owner" = some .null)
      ∧ (([] : List (String × Json)).lookup "funnel" = none →
          jLookup (enrBuiltG "L100".toList dfs [] "skipped" "T") "funnel" = some .null) :=
  c6_merge_total_on_object_shapes "L100".toList [] [] "skipped" "T" (fun _ h => nomatch h)

/-- C8: with `SKIP_OWNER_LOOKUP` set, processing a raw object makes no call
to the lookup service and writes a curated artifact whose `lead_owner` is
null and whose `owner_lookup_status` is "skipped" (the notification target
being unconfigured; its own failure modes are the subject of C9). -/
theorem c8_skip_lookup (cfg : Config) (w : World) (bucket : String) (d i : List Char)
    (fs : List (String × Json))
    (hskip : cfg.skip_owner_lookup = true)
    (hsl : cfg.slack_secret_name = none)
    (hd : ('/' : Char) ∉ d) (hi : ('/' : Char) ∉ i)
    (hdata : dataOf (w.s3obj bucket (raw_key d i)) = .ok (.obj fs)) :
    (process_object cfg w bucket (raw_key d i)).1.lookupCalls = []
    ∧ (process_object cfg w bucket (raw_key d i)).1.curatedWrites
        = [(cfg.curated_bucket, curated_key d i, enrBuiltG i fs [] "skipped" w.now)]
    ∧ jLookup (enrBuiltG i fs [] "skipped" w.now) "lead_owner" = some .null
    ∧ jLookup (enrBuiltG i fs [] "skipped" w.now) "owner_lookup_status"
        = some (.str "skipped")
    ∧ (process_object cfg w bucket (raw_key d i)).1.errorWrites = []
    ∧ (process_object cfg w bucket (raw_key d i)).2 = .ok () := by
  have hp := parse_raw_key d i hd hi
  have henr : enrich_object cfg.skip_owner_lookup cfg.owner_base cfg.curated_bucket
      cfg.error_bucket w.s3obj w.net w.now bucket (raw_key d i)
      = (⟨[], [(cfg.curated_bucket, curated_key d i, enrBuiltG i fs [] "skipped" w.now)], []⟩,
         .ok (some (enrBuiltG i fs [] "skipped" w.now))) := by
    simp only [enrich_object, hp, hdata, hskip, lookup_phase, if_true, build_obj]
  have hnotify : notify_step cfg.slack_secret_name w.secret w.loads w.postO = .ok [] := by
    rw [hsl]
    rfl
  refine ⟨?_, ?_, rfl, rfl, ?_, ?_⟩ <;>
    simp [process_object, henr, hnotify]

/-- C8 witness: the skip-configuration run on the sample raw object. -/
theorem c8_witness :
    (process_object cfgSkip wOk "raw-bucket" (raw_key dayA leadA)).1.lookupCalls = []
    ∧ (process_object cfgSkip wOk "raw-bucket" (raw_key dayA leadA)).1.curatedWrites
        = [("curated-bucket", curated_key dayA leadA,
            enrBuiltG leadA dataA [] "skipped" "2024-03-01T12:00:00+00:00")]
    ∧ jLookup (enrBuiltG leadA dataA [] "skipped" "2024-03-01T12:00:00+00:00") "lead_owner"
        = some .null
    ∧ jLookup (enrBuiltG leadA dataA [] "skipped" "2024-03-01T12:00:00+00:00")
        "owner_lookup_status" = some (.str "skipped")
    ∧ (process_object cfgSkip wOk "raw-bucket" (raw_key dayA leadA)).1.errorWrites = []
    ∧ (process_object cfgSkip wOk "raw-bucket" (raw_key dayA leadA)).2 = .ok () :=
  c8_skip_lookup cfgSkip wOk "raw-bucket" dayA leadA dataA rfl rfl
    (by decide) (by decide) rfl

/-- C1 counterexample: a raw object whose owner lookup fails permanently
(HTTP 404) gets the error artifact and is acknowledged, but a curated
artifact is also produced for that day and lead, refuting the claim that no
curated artifact is written. -/
theorem c1_counterexample :
    (process_object cfgA w404 "raw-bucket" (raw_key dayA leadA)).1.errorWrites.length = 1
    ∧ (process_object cfgA w404 "raw-bucket" (raw_key dayA leadA)).1.curatedWrites.length = 1
    ∧ (process_object cfgA w404 "raw-bucket" (raw_key dayA leadA)).2 = .ok () :=
  ⟨rfl, rfl, rfl⟩

/-- C1 (amended): when the owner lookup fails with a permanently-classified
error, the handler writes the error artifact whose reason is
`permanent:ErrorKind`, does not propagate an exception (the message is
acknowledged), and in addition writes a curated artifact for that day and
lead with `owner_lookup_status` "permanent_failed" and a null owner (the
notification target being unconfigured; its failure modes are C9). -/
theorem c1_permanent_failure_writes_both (cfg : Config) (w : World) (bucket : String)
    (d i : List Char) (fs : List (String × Json)) (e0 : PyErr)
    (hskip : cfg.skip_owner_lookup = false)
    (hsl : cfg.slack_secret_name = none)
    (hd : ('/' : Char) ∉ d) (hi : ('/' : Char) ∉ i)
    (hdata : dataOf (w.s3obj bucket (raw_key d i)) = .ok (.obj fs))
    (hnet : w.net (owner_url cfg.owner_base i) 0 = .error e0)
    (hperm : classify_lookup_error e0 = "permanent") :
    (process_object cfg w bucket (raw_key d i)).1.errorWrites
        = [(cfg.error_bucket, err_key d i, error_payload i e0 w.now)]
    ∧ jLookup (error_payload i e0 w.now) "reason"
        = some (.str ("permanent:" ++ e0.typeName))
    ∧ (process_object cfg w bucket (raw_key d i)).1.curatedWrites
        = [(cfg.curated_bucket, curated_key d i,
            enrBuiltG i fs [] "permanent_failed" w.now)]
    ∧ jLookup (enrBuiltG i fs [] "permanent_failed" w.now) "owner_lookup_status"
        = some (.str "permanent_failed")
    ∧ jLookup (enrBuiltG i fs [] "permanent_failed" w.now) "lead_owner" = some .null
    ∧ (process_object cfg w bucket (raw_key d i)).2 = .ok () := by
  have hp := parse_raw_key d i hd hi
  have hfetch := fetch_perm_first (w.net (owner_url cfg.owner_base i)) e0 hnet hperm
  have hlk : lookup_phase cfg.skip_owner_lookup (w.net (owner_url cfg.owner_base i))
      (owner_url cfg.owner_base i) d i cfg.error_bucket w.now
      = ([(owner_url cfg.owner_base i, 1)],
         .ok (.obj [], "permanent_failed",
           [(cfg.error_bucket, err_key d i, error_payload i e0 w.now)])) := by
    simp only [lookup_phase, hskip, if_false, hfetch, hperm, if_true]
    rfl
  have henr : enrich_object cfg.skip_owner_lookup cfg.owner_base cfg.curated_bucket
      cfg.error_bucket w.s3obj w.net w.now bucket (raw_key d i)
      = (⟨[(cfg.error_bucket, err_key d i, error_payload i e0 w.now)],
          [(cfg.curated_bucket, curated_key d i, enrBuiltG i fs [] "permanent_failed" w.now)],
          [(owner_url cfg.owner_base i, 1)]⟩,
         .ok (some (enrBuiltG i fs [] "permanent_failed" w.now))) := by
    simp only [enrich_object, hp, hdata, hlk, build_obj]
  have hnotify : notify_step cfg.slack_secret_name w.secret w.loads w.postO = .ok [] := by
    rw [hsl]
    rfl
  refine ⟨?_, rfl, ?_, rfl, rfl, ?_⟩ <;>
    simp [process_object, henr, hnotify]

/-- C1 witness: the amended theorem at the sample 404 run. -/
theorem c1_witness :
    (process_object cfgA w404 "raw-bucket" (raw_key dayA leadA)).1.errorWrites
        = [("error-bucket", err_key dayA leadA,
            error_payload leadA (.httpError 404) "2024-03-01T12:00:00+00:00")]
    ∧ jLookup (error_payload leadA (.httpError 404) "2024-03-01T12:00:00+00:00") "reason"
        = some (.str ("permanent:" ++ PyErr.typeName (.httpError 404)))
    ∧ (process_object cfgA w404 "raw-bucket" (raw_key dayA leadA)).1.curatedWrites
        = [("curated-bucket", curated_key dayA leadA,
            enrBuiltG leadA dataA [] "permanent_failed" "2024-03-01T12:00:00+00:00")]
    ∧ jLookup (enrBuiltG leadA dataA [] "permanent_failed" "2024-03-01T12:00:00+00:00")
        "owner_lookup_status" = some (.str "permanent_failed")
    ∧ jLookup (enrBuiltG leadA dataA [] "permanent_failed" "2024-03-01T12:00:00+00:00")
        "lead_owner" = some .null
    ∧ (process_object cfgA w404 "raw-bucket" (raw_key dayA leadA)).2 = .ok () :=
  c1_permanent_failure_writes_both cfgA w404 "raw-bucket" dayA leadA dataA (.httpError 404)
    rfl rfl (by decide) (by decide) rfl rfl rfl

/-- C9 counterexample: when the configured Slack secret resolves to a
truthy webhook value without a url scheme (here the `https://` was
dropped), the `urllib.request.Request` constructor in `_post_slack` raises
`ValueError` before the `try` block, and the exception escapes the
notification step and the handler, even though the curated artifact was
already written: the queue message would be retried. -/
theorem c9_counterexample :
    (process_object cfgSlack wBadHook "raw-bucket" (raw_key dayA leadA)).2
      = .error (.otherError "ValueError")
    ∧ (process_object cfgSlack wBadHook "raw-bucket" (raw_key dayA leadA)).1.curatedWrites.length
        = 1 :=
  ⟨rfl, rfl⟩

/-- C9 (amended): the persisted enrichment result (curated writes, error
writes, lookup calls) never depends on the notification configuration or on
the outcomes of the secret resolution and the POST; with no configured
notification target the step is a no-op and the handler result is exactly
the enrichment result; and whenever the resolved webhook value is falsy or
is a string carrying a url scheme, every failure of the POST itself (bad
credential lookup already yields a falsy hook; network errors and non-2xx
responses happen inside the `try`) is swallowed and the handler result is
again exactly the enrichment result. Only a truthy hook that is not a
string with a scheme makes the `Request` constructor raise and the
exception escape. -/
theorem c9_notification_isolated (cfg cfg2 : Config) (w w2 : World) (b : String) (k : List Char)
    (h1 : cfg2.skip_owner_lookup = cfg.skip_owner_lookup)
    (h2 : cfg2.owner_base = cfg.owner_base)
    (h3 : cfg2.curated_bucket = cfg.curated_bucket)
    (h4 : cfg2.error_bucket = cfg.error_bucket)
    (h5 : w2.s3obj = w.s3obj) (h6 : w2.net = w.net) (h7 : w2.now = w.now) :
    ((process_object cfg2 w2 b k).1.curatedWrites = (process_object cfg w b k).1.curatedWrites
      ∧ (process_object cfg2 w2 b k).1.errorWrites = (process_object cfg w b k).1.errorWrites
      ∧ (process_object cfg2 w2 b k).1.lookupCalls = (process_object cfg w b k).1.lookupCalls)
    ∧ (cfg.slack_secret_name = none →
        (process_object cfg w b k).1.slackPosts = []
        ∧ (process_object cfg w b k).2
            = dropPayload (enrich_object cfg.skip_owner_lookup cfg.owner_base
                cfg.curated_bucket cfg.error_bucket w.s3obj w.net w.now b k).2)
    ∧ (∀ u : String, slack_url cfg.slack_secret_name w.secret w.loads = .str u →
        hasUrlType u.toList = true →
        (process_object cfg w b k).2
          = dropPayload (enrich_object cfg.skip_owner_lookup cfg.owner_base
              cfg.curated_bucket cfg.error_bucket w.s3obj w.net w.now b k).2) := by
  have hE : enrich_object cfg2.skip_owner_lookup cfg2.owner_base cfg2.curated_bucket
      cfg2.error_bucket w2.s3obj w2.net w2.now b k
      = enrich_object cfg.skip_owner_lookup cfg.owner_base cfg.curated_bucket
        cfg.error_bucket w.s3obj w.net w.now b k := by
    rw [h1, h2, h3, h4, h5, h6, h7]
  refine ⟨⟨?_, ?_, ?_⟩, ?_, ?_⟩
  · simp only [process_object, hE]
    cases hr : (enrich_object cfg.skip_owner_lookup cfg.owner_base cfg.curated_bucket
        cfg.error_bucket w.s3obj w.net w.now b k).2 with
    | error e => rfl
    | ok o =>
      cases o with
      | none => rfl
      | some enr =>
        cases notify_step cfg2.slack_secret_name w2.secret w2.loads w2.postO <;>
          cases notify_step cfg.slack_secret_name w.secret w.loads w.postO <;> rfl
  · simp only [process_object, hE]
    cases hr : (enrich_object cfg.skip_owner_lookup cfg.owner_base cfg.curated_bucket
        cfg.error_bucket w.s3obj w.net w.now b k).2 with
    | error e => rfl
    | ok o =>
      cases o with
      | none => rfl
      | some enr =>
        cases notify_step cfg2.slack_secret_name w2.secret w2.loads w2.postO <;>
          cases notify_step cfg.slack_secret_name w.secret w.loads w.postO <;> rfl
  · simp only [process_object, hE]
    cases hr : (enrich_object cfg.skip_owner_lookup cfg.owner_base cfg.curated_bucket
        cfg.error_bucket w.s3obj w.net w.now b k).2 with
    | error e => rfl
    | ok o =>
      cases o with
      | none => rfl
      | some enr =>
        cases notify_step cfg2.slack_secret_name w2.secret w2.loads w2.postO <;>
          cases notify_step cfg.slack_secret_name w.secret w.loads w.postO <;> rfl
  · intro hsl
    have hn : notify_step cfg.slack_secret_name w.secret w.loads w.postO = .ok [] := by
      rw [hsl]
      rfl
    constructor
    · simp only [process_object]
      cases hr : (enrich_object cfg.skip_owner_lookup cfg.owner_base cfg.curated_bucket
          cfg.error_bucket w.s3obj w.net w.now b k).2 with
      | error e => rfl
      | ok o =>
        cases o with
        | none => rfl
        | some enr =>
          rw [hn]
    · simp only [process_object]
      cases hr : (enrich_object cfg.skip_owner_lookup cfg.owner_base cfg.curated_bucket
          cfg.error_bucket w.s3obj w.net w.now b k).2 with
      | error e => rfl
      | ok o =>
        cases o with
        | none => rfl
        | some enr =>
          rw [hn]
          rfl
  · intro u hu hurl
    have hn : ∃ posts, notify_step cfg.slack_secret_name w.secret w.loads w.postO
        = .ok posts := by
      simp only [notify_step, hu]
      by_cases hemp : u = ""
      · subst hemp
        exact ⟨[], rfl⟩
      · have ht : pyTruthy (.str u) = true := by simp [pyTruthy, hemp]
        rw [ht]
        simp only [post_slack, hurl, if_true]
        exact ⟨_, rfl⟩
    rcases hn with ⟨posts, hn⟩
    simp only [process_object]
    cases hr : (enrich_object cfg.skip_owner_lookup cfg.owner_base cfg.curated_bucket
        cfg.error_bucket w.s3obj w.net w.now b k).2 with
    | error e => rfl
    | ok o =>
      cases o with
      | none => rfl
      | some enr =>
        rw [hn]
        rfl

/-- C9 witness: with a well-formed https webhook url and a POST failing with
a network error, the handler result equals the enrichment result (the
failure is swallowed). -/
theorem c9_witness :
    (process_object cfgSlack wGoodHook "raw-bucket" (raw_key dayA leadA)).2
      = dropPayload (enrich_object cfgSlack.skip_owner_lookup cfgSlack.owner_base
          cfgSlack.curated_bucket cfgSlack.error_bucket wGoodHook.s3obj wGoodHook.net
          wGoodHook.now "raw-bucket" (raw_key dayA leadA)).2 :=
  (c9_notification_isolated cfgSlack cfgSlack wGoodHook wGoodHook "raw-bucket"
      (raw_key dayA leadA) rfl rfl rfl rfl rfl rfl rfl).2.2
    "https://hooks.slack.com/services/T000" rfl rfl

/-- C2: the `return` inside the outer record loop makes the handler return
success after the first record of the delivery: the result is identical
whether or not further records follow, and on a concrete two-record event
(each record referencing its own raw object) only one curated artifact is
written while the handler still reports success for the whole batch. -/
theorem c2_only_first_record_processed :
    (∀ (cfg : Config) (w : World) (r : Json) (rest : List Json),
      lambda_handler cfg w (.obj [("Records", .arr (r :: rest))])
        = lambda_handler cfg w (.obj [("Records", .arr [r])]))
    ∧ (lambda_handler cfgA wOk eventAB).2 = .ok (some (.obj [("ok", .bool true)]))
    ∧ (lambda_handler cfgA wOk eventAB).1.curatedWrites.length = 1 :=
  ⟨fun _ _ _ _ => rfl, rfl, rfl⟩

theorem build_assignee (lid : List Char) (data owner : Json) (status now : String)
    (enr : Json) (h : build_enriched lid data owner status now = .ok enr) :
    jLookup enr "assignee" = jLookup enr "lead_owner" := by
  cases data <;> cases owner <;>
    first
      | (rw [build_obj] at h
         cases h
         rfl)
      | exact nomatch h

theorem enrich_assignee (skip : Bool) (ob cb eb : String)
    (s3obj : String → List Char → Json) (net : List Char → Nat → Except PyErr Json)
    (now bucket : String) (k : List Char) (p : String × List Char × Json)
    (hp : p ∈ (enrich_object skip ob cb eb s3obj net now bucket k).1.curatedWrites) :
    jLookup p.2.2 "assignee" = jLookup p.2.2 "lead_owner" := by
  rcases hk : parse_key k with _ | ⟨d, i⟩ | e
  · simp [enrich_object, hk, noEff] at hp
  · rcases hD : dataOf (s3obj bucket k) with e2 | data
    · simp [enrich_object, hk, hD, noEff] at hp
    · rcases hL : lookup_phase skip (net (owner_url ob i)) (owner_url ob i) d i eb now
          with ⟨calls, e3 | ⟨owner, status, errw⟩⟩
      · simp [enrich_object, hk, hD, hL] at hp
      · rcases hB : build_enriched i data owner status now with e4 | enr
        · simp [enrich_object, hk, hD, hL, hB] at hp
        · simp only [enrich_object, hk, hD, hL, hB, List.mem_singleton] at hp
          rw [hp]
          exact build_assignee i data owner status now enr hB
  · simp [enrich_object, hk, noEff] at hp

theorem process_object_curated (cfg : Config) (w : World) (b : String) (k : List Char) :
    (process_object cfg w b k).1.curatedWrites
      = (enrich_object cfg.skip_owner_lookup cfg.owner_base cfg.curated_bucket
          cfg.error_bucket w.s3obj w.net w.now b k).1.curatedWrites := by
  simp only [process_object]
  cases hr : (enrich_object cfg.skip_owner_lookup cfg.owner_base cfg.curated_bucket
      cfg.error_bucket w.s3obj w.net w.now b k).2 with
  | error e => rfl
  | ok o =>
    cases o with
    | none => rfl
    | some enr =>
      cases notify_step cfg.slack_secret_name w.secret w.loads w.postO <;> rfl

theorem process_record_assignee (cfg : Config) (w : World) (rec : Json)
    (p : String × List Char × Json)
    (hp : p ∈ (process_record cfg w rec).1.curatedWrites) :
    jLookup p.2.2 "assignee" = jLookup p.2.2 "lead_owner" := by
  unfold process_record at hp
  split at hp
  · simp at hp
  · split at hp
    · rw [process_object_curated] at hp
      exact enrich_assignee _ _ _ _ _ _ _ _ _ p hp
    · simp at hp

theorem process_records_assignee (cfg : Config) (w : World) (rs : List Json) :
    ∀ p : String × List Char × Json,
      p ∈ (process_records cfg w rs).1.curatedWrites →
      jLookup p.2.2 "assignee" = jLookup p.2.2 "lead_owner" := by
  induction rs with
  | nil =>
    intro p hp
    simp [process_records] at hp
  | cons rec rest ih =>
    intro p hp
    rw [process_records] at hp
    rcases hpr : process_record cfg w rec with ⟨eff, res⟩
    rw [hpr] at hp
    have heff : eff = (process_record cfg w rec).1 := by rw [hpr]
    rcases res with e | u
    · have hp2 : p ∈ eff.curatedWrites := hp
      exact process_record_assignee cfg w rec p (heff ▸ hp2)
    · have hp2 : p ∈ eff.curatedWrites ++ (process_records cfg w rest).1.curatedWrites := hp
      rcases List.mem_append.mp hp2 with hmem | hmem
      · exact process_record_assignee cfg w rec p (heff ▸ hmem)
      · exact ih p hmem

theorem handle_body_assignee (cfg : Config) (w : World) (record : Json)
    (p : String × List Char × Json)
    (hp : p ∈ (handle_body cfg w record).1.curatedWrites) :
    jLookup p.2.2 "assignee" = jLookup p.2.2 "lead_owner" := by
  unfold handle_body at hp
  split at hp
  · simp at hp
  · split at hp
    · simp at hp
    · exact process_records_assignee cfg w _ p hp

/-- C10: in every curated artifact the handler writes, for every
configuration, world and event and every owner-lookup outcome, the
`assignee` field equals the `lead_owner` field (both are read from the
owner payload under the key `lead_owner`). -/
theorem c10_assignee_eq_owner (cfg : Config) (w : World) (event : Json)
    (p : String × List Char × Json)
    (hp : p ∈ (lambda_handler cfg w event).1.curatedWrites) :
    jLookup p.2.2 "assignee" = jLookup p.2.2 "lead_owner" := by
  unfold lambda_handler at hp
  split at hp
  · simp at hp
  · simp at hp
  next record rest heq =>
    rcases hH : handle_body cfg w record with ⟨eff, res⟩
    rw [hH] at hp
    have heff : eff = (handle_body cfg w record).1 := by rw [hH]
    rcases res with e | u
    · have hp2 : p ∈ eff.curatedWrites := hp
      exact handle_body_assignee cfg w record p (heff ▸ hp2)
    · have hp2 : p ∈ eff.curatedWrites := hp
      exact handle_body_assignee cfg w record p (heff ▸ hp2)

/-- C10 witness: the invariant at the curated artifact of the sample
successful run. -/
theorem c10_witness : jLookup pC10.2.2 "assignee" = jLookup pC10.2.2 "lead_owner" :=
  c10_assignee_eq_owner cfgA wOk eventA pC10
    (by rw [show (lambda_handler cfgA wOk eventA).1.curatedWrites = [pC10] from rfl]
        exact List.mem_singleton.mpr rfl)
